import Mathlib

/-!
Verification of the devcontainer bootstrap scripts
(`.devcontainer/commands/initialize.py` and `.devcontainer/commands/post_start.py`).

The Python code is shallowly embedded: YAML values become the inductive type
`Yaml` (mapping keys are modelled as strings, the only key type the scripts
use), Python dictionaries become association lists, and code that can raise a
Python exception is embedded in the `Except PyErr` monad, where `.error`
means the Python code raises at that point.  Warnings, which the scripts
print with `warn(...)`, are modelled as an explicit list of the printed
strings returned alongside the pass/fail boolean.  File-system reads are
modelled by `LoadOutcome` values passed in as inputs; file writes performed
by `main` are recorded as booleans in `RunResult`.
-/

/-- A parsed YAML value, as produced by `yaml.safe_load`.  Mapping keys are
modelled as strings (the scripts only ever use string keys). -/
inductive Yaml where
  | null
  | bool (b : Bool)
  | int (n : Int)
  | str (s : String)
  | list (xs : List Yaml)
  | map (kvs : List (String × Yaml))

/-- A top-level YAML mapping (a Python `dict` with string keys). -/
abbrev YMap := List (String × Yaml)

/-- The Python exceptions the embedded code can raise. -/
inductive PyErr where
  | typeError
  | attributeError
  | keyError
  | fileNotFound
  | yamlError
deriving DecidableEq

/-- Dictionary lookup: `d[k]` / `d.get(k)` on a Python dict. -/
def mapGet (kvs : YMap) (k : String) : Option Yaml :=
  match kvs with
  | [] => none
  | (k', v) :: rest => if k' == k then some v else mapGet rest k

/-- Python `k in d` on a dict. -/
def mapContains (kvs : YMap) (k : String) : Bool :=
  (mapGet kvs k).isSome

/-- Python `d.get(k, dflt)`. -/
def mapGetD (kvs : YMap) (k : String) (dflt : Yaml) : Yaml :=
  (mapGet kvs k).getD dflt

/-- Python `d[k] = v`: replace the value at the first occurrence of `k`,
or append the binding when `k` is absent (insertion-ordered dicts). -/
def mapSet (kvs : YMap) (k : String) (v : Yaml) : YMap :=
  match kvs with
  | [] => [(k, v)]
  | (k', v') :: rest => if k' == k then (k', v) :: rest else (k', v') :: mapSet rest k v

/-- Python `==` between a string and an arbitrary value (no exception,
`False` across types). -/
def strEq (s : String) : Yaml → Bool
  | .str t => s == t
  | _ => false

/-- Python `needle in hay` for strings: contiguous substring test. -/
def strContainsB (hay needle : String) : Bool :=
  decide (needle.data <:+: hay.data)

/-- Python `needle in v` for an arbitrary YAML value: key membership for
mappings, element equality for sequences, substring for strings, and a
`TypeError` for scalars. -/
def pyContains (needle : String) : Yaml → Except PyErr Bool
  | .map kvs => .ok (mapContains kvs needle)
  | .list xs => .ok (xs.any (strEq needle))
  | .str s => .ok (strContainsB s needle)
  | _ => .error .typeError

/-- Python `v[k]` for a string key `k`: dict lookup (raising `KeyError` when
absent), `TypeError` on every other type. -/
def pySubscriptStr (v : Yaml) (k : String) : Except PyErr Yaml :=
  match v with
  | .map kvs =>
    match mapGet kvs k with
    | some x => .ok x
    | none => .error .keyError
  | _ => .error .typeError

/-- Python `v.keys()`: the keys of a dict, `AttributeError` otherwise. -/
def pyKeys (v : Yaml) : Except PyErr (List String) :=
  match v with
  | .map kvs => .ok (kvs.map (fun kv => kv.1))
  | _ => .error .attributeError

/-- Python iteration over a value (the argument of `list.extend`):
sequences yield their elements, strings their characters, dicts their keys;
scalars raise `TypeError`. -/
def pyIterate : Yaml → Except PyErr (List Yaml)
  | .list xs => .ok xs
  | .str s => .ok (s.data.map (fun c => .str (String.singleton c)))
  | .map kvs => .ok (kvs.map (fun kv => .str kv.1))
  | _ => .error .typeError

/-- Python `isinstance(v, str)`. -/
def isStr : Yaml → Bool
  | .str _ => true
  | _ => false

/-- Python `isinstance(v, list)`. -/
def isList : Yaml → Bool
  | .list _ => true
  | _ => false

/-- Python `', '.join(l)`. -/
def joinComma : List String → String
  | [] => ""
  | [x] => x
  | x :: y :: rest => x ++ ", " ++ joinComma (y :: rest)

/-- Insert a string into an ascending list, keeping it ascending. -/
def insertAsc (s : String) : List String → List String
  | [] => [s]
  | x :: xs => if s ≤ x then s :: x :: xs else x :: insertAsc s xs

/-- Python `sorted(l)` on strings (ascending lexicographic order). -/
def sortStrs : List String → List String
  | [] => []
  | x :: xs => insertAsc x (sortStrs xs)

/-- Python `set(keys) - set(allowed)`, as the deduplicated list of keys not
in the allow-list (only membership and sorted order are ever used). -/
def setDiff (keys allowed : List String) : List String :=
  (keys.filter (fun k => ¬ allowed.contains k)).dedup

/-- Result of one validator call: pass/fail plus the warning lines it
printed. -/
abbrev VResult := Except PyErr (Bool × List String)

/-- Embeds `validate_compose` (initialize.py lines 190-194): fails when
`services` is absent or `devcontainer` is not `in` the value at
`services`. -/
def validate_compose (data : YMap) (filename : String) : VResult :=
  if !(mapContains data "services") then .ok (false, [])
  else
    match pyContains "devcontainer" (mapGetD data "services" (.map [])) with
    | .error e => .error e
    | .ok hasDev => if !hasDev then .ok (false, []) else .ok (true, [])

/-- The allow-list of `validate_compose_custom`. -/
def allowedComposeKeys : List String :=
  ["environment", "volumes", "devices", "ports", "cap_add", "extra_hosts"]

/-- Embeds `validate_compose_custom` (initialize.py lines 197-204): first
`validate_compose`, then warn about keys of `services.devcontainer` outside
the allow-list. -/
def validate_compose_custom (data : YMap) (filename : String) : VResult :=
  match validate_compose data filename with
  | .error e => .error e
  | .ok (false, w) => .ok (false, w)
  | .ok (true, _) =>
    match pySubscriptStr (.map data) "services" with
    | .error e => .error e
    | .ok svcs =>
      match pySubscriptStr svcs "devcontainer" with
      | .error e => .error e
      | .ok dev =>
        match pyKeys dev with
        | .error e => .error e
        | .ok keys =>
          let unknown := setDiff keys allowedComposeKeys
          if unknown.isEmpty then .ok (true, [])
          else .ok (true, [filename ++ ": Unknown keys: " ++ joinComma (sortStrs unknown)])

/-- Python `field in data and isinstance(data[field], str)`. -/
def fieldIsStr (data : YMap) (f : String) : Bool :=
  match mapGet data f with
  | some v => isStr v
  | none => false

/-- Embeds `validate_packages` (initialize.py lines 207-215): requires
string fields `image_name` and `image_tag`, then `base.packages` a list;
`data.get(\x22base\x22, ...).get(...)` raises `AttributeError` when `base`
is present but not a mapping. -/
def validate_packages (data : YMap) (filename : String) : VResult :=
  if !(fieldIsStr data "image_name") then .ok (false, [])
  else if !(fieldIsStr data "image_tag") then .ok (false, [])
  else if !(mapContains data "base") then .ok (false, [])
  else
    match mapGetD data "base" (.map []) with
    | .map bkvs =>
      match mapGet bkvs "packages" with
      | some (.list _) => .ok (true, [])
      | _ => .ok (false, [])
    | _ => .error .attributeError

/-- Embeds `validate_packages_custom` (initialize.py lines 218-223): always
passes, warning about top-level keys outside base/devenv. -/
def validate_packages_custom (data : YMap) (filename : String) : VResult :=
  let unknown := setDiff (data.map (fun kv => kv.1)) ["base", "devenv"]
  if unknown.isEmpty then .ok (true, [])
  else .ok (true, [filename ++ ": Unknown sections: " ++ joinComma (sortStrs unknown)])

/-- The pass/fail boolean of a validator result (`false` also when the
validator raised). -/
def vpass : VResult → Bool
  | .ok (b, _) => b
  | .error _ => false

/-- The warnings of a validator result. -/
def vwarns : VResult → List String
  | .ok (_, ws) => ws
  | .error _ => []

/-- True when the validator terminated normally (did not raise). -/
def isOkE : VResult → Bool
  | .ok _ => true
  | .error _ => false

/-- Outcome of opening and `yaml.safe_load`-ing an existing file:
either a syntax error or a parsed value. -/
inductive LoadOutcome where
  | parseErr
  | value (v : Yaml)

/-- A file on disk: `none` when the file does not exist, otherwise what
loading it yields. -/
abbrev YFile := Option LoadOutcome

/-- Loading an existing file inside `merge_packages`, where a YAML syntax
error is not caught and propagates. -/
def loadOutcome : LoadOutcome → Except PyErr Yaml
  | .parseErr => .error .yamlError
  | .value v => .ok v

/-- Loading a file whose absence raises `FileNotFoundError` (the
`default_path.open()` call in `merge_packages`). -/
def loadRequired : YFile → Except PyErr Yaml
  | none => .error .fileNotFound
  | some o => loadOutcome o

/-- Embeds `validate_yaml` (initialize.py lines 170-187): missing file and
YAML syntax errors yield `False`; a non-dict document yields `False`; the
validator's pass/fail is returned and a validator exception propagates
(only `yaml.YAMLError` is caught). -/
def validate_yaml (file : YFile) (filename : String)
    (validator : YMap → String → VResult) : Except PyErr Bool :=
  match file with
  | none => .ok false
  | some .parseErr => .ok false
  | some (.value v) =>
    match v with
    | .map kvs =>
      match validator kvs filename with
      | .error e => .error e
      | .ok (ok, _) => .ok ok
    | _ => .ok false

/-- Python `custom = yaml.safe_load(f) or ...` with an empty dict on the
right: falsy loaded values collapse to the empty dict. -/
def pyOrEmptyMap : Yaml → Yaml
  | .null => .map []
  | .bool false => .map []
  | .int 0 => .map []
  | .str "" => .map []
  | .list [] => .map []
  | v => v

/-- Embeds `merged.setdefault(sec, ...).setdefault(fld, [])` from
`merge_packages`: creates the section and/or the field slot when absent;
raises `AttributeError` when `merged` or the existing section value is not
a dict. -/
def setdefaultPath (merged : Yaml) (sec fld : String) : Except PyErr Yaml :=
  match merged with
  | .map mkvs =>
    match mapGet mkvs sec with
    | none => .ok (.map (mapSet mkvs sec (.map [(fld, .list [])])))
    | some (.map skvs) =>
      match mapGet skvs fld with
      | some _ => .ok (.map mkvs)
      | none => .ok (.map (mapSet mkvs sec (.map (mapSet skvs fld (.list [])))))
    | some _ => .error .attributeError
  | _ => .error .attributeError

/-- Embeds `merged[sec][fld].extend(custom[sec][fld])` from
`merge_packages`, in Python's evaluation order: subscripts on `merged`,
the `.extend` attribute lookup (requiring a list), the subscripts on
`custom`, then iteration of the argument. -/
def extendPath (merged custom : Yaml) (sec fld : String) : Except PyErr Yaml :=
  match pySubscriptStr merged sec with
  | .error e => .error e
  | .ok msec =>
    match pySubscriptStr msec fld with
    | .error e => .error e
    | .ok mval =>
      match mval with
      | .list ms =>
        match pySubscriptStr custom sec with
        | .error e => .error e
        | .ok csec =>
          match pySubscriptStr csec fld with
          | .error e => .error e
          | .ok cval =>
            match pyIterate cval with
            | .error e => .error e
            | .ok items =>
              match merged, msec with
              | .map mkvs, .map skvs =>
                .ok (.map (mapSet mkvs sec (.map (mapSet skvs fld (.list (ms ++ items))))))
              | _, _ => .error .typeError
      | _ => .error .attributeError

/-- One `if fld in custom[sec]: setdefault...; extend...` block of
`merge_packages`. -/
def mergeField (merged custom : Yaml) (sec fld : String) : Except PyErr Yaml :=
  match pySubscriptStr custom sec with
  | .error e => .error e
  | .ok csec =>
    match pyContains fld csec with
    | .error e => .error e
    | .ok true =>
      match setdefaultPath merged sec fld with
      | .error e => .error e
      | .ok m₁ => extendPath m₁ custom sec fld
    | .ok false => .ok merged

/-- One `if sec in custom:` block of `merge_packages`, merging the
`packages` then the `python_tools` field of that section. -/
def mergeSection (merged custom : Yaml) (sec : String) : Except PyErr Yaml :=
  match pyContains sec custom with
  | .error e => .error e
  | .ok true =>
    match mergeField merged custom sec "packages" with
    | .error e => .error e
    | .ok m₁ => mergeField m₁ custom sec "python_tools"
  | .ok false => .ok merged

/-- Embeds `merge_packages` (initialize.py lines 257-291): load the default
document, and when the custom file exists, load it (falsy becomes the empty
dict) and merge its `base` then `devenv` sections.  The result is what is
serialized to `packages.yml`. -/
def merge_packages (dfltFile customFile : YFile) : Except PyErr Yaml :=
  match loadRequired dfltFile with
  | .error e => .error e
  | .ok merged =>
    match customFile with
    | none => .ok merged
    | some co =>
      match loadOutcome co with
      | .error e => .error e
      | .ok raw =>
        let custom := pyOrEmptyMap raw
        match mergeSection merged custom "base" with
        | .error e => .error e
        | .ok m₁ => mergeSection m₁ custom "devenv"

/-- Parsed form of the scaffold text written by `create_packages_custom`
(initialize.py lines 242-254). -/
def packagesCustomScaffold : Yaml :=
  .map [("base", .map [("packages", .list [])]),
        ("devenv", .map [("packages", .list [])])]

/-- The OS-level facts probed by `get_system_info` (initialize.py lines
75-117), passed to the host validator as one record. -/
structure HostInfo where
  ptrace_scope : Option Int
  disk_available_gb : Option Int
  memory_total_gb : Int
  memory_available_gb : Int
  docker_available : Bool
  docker_running : Bool
  docker_version : Option String
  git_repo_root : Option String

/-- Embeds `validate_host` (initialize.py lines 120-167): fails (returns
`false`) exactly when `ptrace_scope` is 3, Docker is not found, or the
Docker daemon is not running; everything else only logs or warns. -/
def validate_host (info : HostInfo) : Bool :=
  let failedPtrace :=
    match info.ptrace_scope with
    | some p => p == 3
    | none => false
  let failedDocker :=
    if !info.docker_available then true
    else if !info.docker_running then true
    else false
  !(failedPtrace || failedDocker)

/-- Process environment, user identity and paths read by `generate_env`,
passed in explicitly. -/
structure EnvInputs where
  environ : List (String × String)
  isWindows : Bool
  os_uid : Int
  os_gid : Int
  home : String
  git_root : Option String

/-- Python `os.environ.get(k)`. -/
def envGet (environ : List (String × String)) (k : String) : Option String :=
  match environ with
  | [] => none
  | (k', v) :: rest => if k' == k then some v else envGet rest k

/-- Embeds `get_uid_gid` (initialize.py lines 43-47). -/
def get_uid_gid (ein : EnvInputs) : Int × Int :=
  if ein.isWindows then (1000, 1000) else (ein.os_uid, ein.os_gid)

/-- Python `f-string` conversion of a YAML scalar.  The scripts only ever
format scalars; sequence/mapping values are collapsed to a placeholder
(no claim depends on their exact Python `repr`). -/
def pyStr : Yaml → String
  | .str s => s
  | .int n => toString n
  | .bool true => "True"
  | .bool false => "False"
  | .null => "None"
  | .list _ => "<sequence>"
  | .map _ => "<mapping>"

/-- The proxy variable names scanned by `generate_env`. -/
def proxyVars : List String := ["http_proxy", "https_proxy", "all_proxy", "no_proxy"]

/-- The proxy block of `generate_env`: each name in lower- then upper-case
spelling, emitted when bound to a truthy (non-empty) value. -/
def proxyLines (environ : List (String × String)) : List String :=
  proxyVars.flatMap (fun var =>
    [var, var.toUpper].filterMap (fun v =>
      match envGet environ v with
      | some val => if val ≠ "" then some (v ++ "=" ++ val) else none
      | none => none))

/-- The `IMAGE_NAME`/`IMAGE_TAG` pair read from the merged packages file by
`generate_env` (initialize.py lines 318-325): the `try` block falls back to
`ubuntu`/`24.04` whenever opening, parsing, or `.get`-ing fails
(missing file, syntax error, or a non-dict document), and `.get` supplies
the same per-field defaults when the keys are absent. -/
def imageConfig : YFile → String × String
  | some (.value (.map kvs)) =>
    ((match mapGet kvs "image_name" with
      | some v => pyStr v
      | none => "ubuntu"),
     (match mapGet kvs "image_tag" with
      | some v => pyStr v
      | none => "24.04"))
  | _ => ("ubuntu", "24.04")

/-- Embeds `generate_env` (initialize.py lines 294-360), returning the
lines written to `.env` (the trailing-newline join is left to the writer). -/
def generate_env (ein : EnvInputs) (packagesFile : YFile) (sfx : String) : List String :=
  let lines0 := proxyLines ein.environ
  let lines1 := if lines0.isEmpty then lines0 else lines0 ++ [""]
  let username := (envGet ein.environ "USER").getD ((envGet ein.environ "USERNAME").getD "developer")
  let uidgid := get_uid_gid ein
  let shell := (envGet ein.environ "SHELL").getD "/bin/bash"
  let lines2 := lines1 ++
    ["SHELL=" ++ shell,
     "USER=" ++ username,
     "USER_UID=" ++ toString uidgid.1,
     "USER_GID=" ++ toString uidgid.2]
  let img := imageConfig packagesFile
  let lines3 := lines2 ++
    ["",
     "IMAGE_NAME=" ++ img.1,
     "IMAGE_TAG=" ++ img.2,
     "",
     "BUILD_TARGET=devenv"]
  let suffix_part := if sfx ≠ "" then "-" ++ sfx else ""
  let lines4 := lines3 ++
    ["",
     "SERVICE_PREPARE=" ++ username ++ "-devcontainer-prepare" ++ suffix_part,
     "SERVICE_MAIN=" ++ username ++ "-devcontainer" ++ suffix_part,
     "",
     "VOLUME_LOCAL_SHARE=" ++ username ++ "-devcontainer-local-share" ++ suffix_part,
     "VOLUME_CONFIG=" ++ username ++ "-devcontainer-config" ++ suffix_part,
     "VOLUME_CACHE=" ++ username ++ "-devcontainer-cache" ++ suffix_part,
     "VOLUME_VSCODE_EXT=" ++ username ++ "-vscode-extensions" ++ suffix_part,
     "VOLUME_VSCODE_EXT_INSIDERS=" ++ username ++ "-vscode-extensions-insiders" ++ suffix_part,
     "",
     "HOME=" ++ ein.home]
  match ein.git_root with
  | some g => lines4 ++ ["GIT_REPO_ROOT=" ++ g]
  | none => lines4

/-- The files under `docker/` that `main` reads. -/
structure FileSys where
  docker_dir : Bool
  compose_default : YFile
  compose_custom : YFile
  packages_default : YFile
  packages_custom : YFile

/-- What one run of `main` produced: its exit code, which files it wrote,
and the `.env` lines it generated (empty when that stage was not
reached). -/
structure RunResult where
  exit : Nat
  wrote_compose_custom : Bool
  wrote_packages_custom : Bool
  wrote_packages_merged : Bool
  wrote_env : Bool
  env_lines : List String

/-- The compose-custom step of `main`: an existing file is validated, a
missing one is scaffolded by `create_compose_custom` (which always
succeeds). -/
def checkComposeCustom (f : YFile) : Except PyErr Bool :=
  match f with
  | some o => validate_yaml (some o) "docker-compose.custom.yml" validate_compose_custom
  | none => .ok true

/-- The packages-custom step of `main`: an existing file is validated, a
missing one is scaffolded by `create_packages_custom`. -/
def checkPackagesCustom (f : YFile) : Except PyErr Bool :=
  match f with
  | some o => validate_yaml (some o) "packages.custom.yml" validate_packages_custom
  | none => .ok true

/-- Embeds `main` (initialize.py lines 363-416).  The `validate_host`
return value is bound and discarded, exactly as in the source.  The
`.netrc`/`.gitconfig` touches are host-home side effects outside the
pipeline's outputs and are not recorded.  An uncaught exception is an
`.error` result (the process then exits non-zero with a traceback). -/
def mainRun (fs : FileSys) (host : HostInfo) (ein : EnvInputs) (sfx : String) :
    Except PyErr RunResult := do
  if !fs.docker_dir then
    return ⟨1, false, false, false, false, []⟩
  let _hostOk := validate_host host
  let ok ← validate_yaml fs.compose_default "docker-compose.default.yml" validate_compose
  if !ok then
    return ⟨1, false, false, false, false, []⟩
  let wroteCC := fs.compose_custom.isNone
  let ok2 ← checkComposeCustom fs.compose_custom
  if !ok2 then
    return ⟨1, wroteCC, false, false, false, []⟩
  let ok3 ← validate_yaml fs.packages_default "packages.default.yml" validate_packages
  if !ok3 then
    return ⟨1, wroteCC, false, false, false, []⟩
  let wrotePC := fs.packages_custom.isNone
  let ok4 ← checkPackagesCustom fs.packages_custom
  if !ok4 then
    return ⟨1, wroteCC, false, false, false, []⟩
  let packagesCustomFile :=
    match fs.packages_custom with
    | some o => some o
    | none => some (.value packagesCustomScaffold)
  let merged ← merge_packages fs.packages_default packagesCustomFile
  let lines := generate_env ein (some (.value merged)) sfx
  return ⟨0, wroteCC, wrotePC, true, true, lines⟩

/-- The line appended to `.bashrc` by `enable_vscode_profile`
(post_start.py line 117). -/
def vscodeProfileSourceLine : String :=
  "\n[ -f ~/.vscode_profile ] && . ~/.vscode_profile\n"

/-- Embeds `enable_vscode_profile` (post_start.py lines 109-118) as a map
from the current `.bashrc` state (`none` when the file does not exist) to
its content afterwards. -/
def enable_vscode_profile (bashrc : Option String) : String :=
  let content := bashrc.getD ""
  if strContainsB content ".vscode_profile" then content
  else content ++ vscodeProfileSourceLine

/-- Projection used to state claims about the exit code of a run: `some`
exit code for a normal return, `none` when `main` raised. -/
def exitOf : Except PyErr RunResult → Option Nat
  | .ok r => some r.exit
  | .error _ => none

/-- A fully valid file layout used as the concrete run for claim C1. -/
def c1Files : FileSys where
  docker_dir := true
  compose_default := some (.value (.map [("services", .map [("devcontainer", .map [])])]))
  compose_custom := none
  packages_default := some (.value (.map
    [("image_name", .str "ubuntu"), ("image_tag", .str "24.04"),
     ("base", .map [("packages", .list [])])]))
  packages_custom := none

/-- A host on which Docker is not installed (for claim C1). -/
def c1Host : HostInfo where
  ptrace_scope := some 0
  disk_available_gb := some 100
  memory_total_gb := 16
  memory_available_gb := 8
  docker_available := false
  docker_running := false
  docker_version := none
  git_repo_root := none

/-- Concrete environment inputs for claim C1. -/
def c1Env : EnvInputs where
  environ := [("USER", "alice")]
  isWindows := false
  os_uid := 1000
  os_gid := 1000
  home := "/home/alice"
  git_root := none

/-- The shape of a validated packages default document, parametrised by its
scalar fields and the four MergeSpec sequences. -/
def mkDefault (nm tg : String) (bp bt dp dt : List Yaml) : Yaml :=
  .map [("image_name", .str nm), ("image_tag", .str tg),
        ("base", .map [("packages", .list bp), ("python_tools", .list bt)]),
        ("devenv", .map [("packages", .list dp), ("python_tools", .list dt)])]

/-- A custom overlay populating all four MergeSpec paths. -/
def mkCustomAll (cbp cbt cdp cdt : List Yaml) : Yaml :=
  .map [("base", .map [("packages", .list cbp), ("python_tools", .list cbt)]),
        ("devenv", .map [("packages", .list cdp), ("python_tools", .list cdt)])]

/-- The claim's precondition for C8: the merged packages file is unreadable
(missing, syntactically invalid, or not a mapping) or lacks both image
fields. -/
def pkMissingImage : YFile → Bool
  | some (.value (.map kvs)) =>
    !(mapContains kvs "image_name") && !(mapContains kvs "image_tag")
  | _ => true

/-- The value bound to `k`, when present, is a mapping. -/
def mapOrAbsent (data : YMap) (k : String) : Bool :=
  match mapGet data k with
  | some (.map _) => true
  | some _ => false
  | none => true

/-- Precondition under which the compose validators only meet values of the
container shapes the spec assumes: `services`, when present, is a mapping,
and its `devcontainer` entry, when present, is a mapping. -/
def composeCustomSafe (data : YMap) : Bool :=
  match mapGet data "services" with
  | none => true
  | some (.map svcs) => mapOrAbsent svcs "devcontainer"
  | some _ => false

/-- The amended pass condition of C3, following the code: `services` is
present and `devcontainer` is among the keys of its mapping value (the
type of the value at `services.devcontainer` is not checked). -/
def composeSpecPass (data : YMap) : Bool :=
  match mapGet data "services" with
  | some (.map svcs) => mapContains svcs "devcontainer"
  | _ => false

/-- The file layout of the C6 witness: valid compose files, but the
packages default lacks `image_tag`. -/
def c6Files : FileSys where
  docker_dir := true
  compose_default := some (.value (.map [("services", .map [("devcontainer", .map [])])]))
  compose_custom := some (.value (.map [("services", .map [("devcontainer", .map [])])]))
  packages_default := some (.value (.map
    [("image_name", .str "ubuntu"), ("base", .map [("packages", .list [])])]))
  packages_custom := none

/-- Top-level lookup in a document when it is a mapping. -/
def topGet : Yaml → String → Option Yaml
  | .map kvs, k => mapGet kvs k
  | _, _ => none

/-- Lookup at the nested path `sec.fld` of a document. -/
def pathGet (v : Yaml) (sec fld : String) : Option Yaml :=
  match topGet v sec with
  | some (.map kvs) => mapGet kvs fld
  | _ => none

/-- C1: the claim says that whenever Docker is unavailable, `main` returns
non-zero.  In the code, `main` calls `validate_host()` but discards its
boolean result, so on a host without Docker (where `validate_host` does
report failure and return `False`) a run with valid config files still
returns exit code 0 — contradicting both the claim and the script's own
`validate_host` failure reporting. -/
theorem C1_docker_failure_ignored :
    c1Host.docker_available = false ∧
    validate_host c1Host = false ∧
    exitOf (mainRun c1Files c1Host c1Env "") = some 0 := by
  refine ⟨rfl, rfl, rfl⟩

/-- C2 counterexample: on the top-level mapping
`image_name: x, image_tag: y, base: 1` (which has passed the Loader's
shape check), `validate_packages` raises `AttributeError` — because
`data.get(\x22base\x22, ...).get(\x22packages\x22)` calls `.get` on the
integer `1` — instead of returning pass/fail. -/
theorem C2_validator_raises :
    validate_packages
      [("image_name", .str "x"), ("image_tag", .str "y"), ("base", .int 1)]
      "packages.default.yml" = .error .attributeError := by
  rfl

/-- C3 counterexample: the document `services: (devcontainer: 5)` binds
`services.devcontainer` to a scalar, not a mapping, yet `validate_compose`
passes it — the code only tests key membership, never the value's type —
while the claim says validation must fail. -/
theorem C3_scalar_devcontainer_passes :
    vpass (validate_compose
      [("services", .map [("devcontainer", .int 5)])]
      "docker-compose.default.yml") = true := by
  rfl

/-- C4: the package merge is append-only and order-preserving on the
MergeSpec list fields: with no custom file the default is returned
unchanged; a custom sequence at one path is appended after the default
sequence at that path; with all four paths populated each merged sequence
is the default sequence followed by the custom sequence; and the claim's
concrete example `[a,b] ++ [c] = [a,b,c]` holds. -/
theorem C4_merge_append_only (nm tg : String) (bp bt dp dt cbp cbt cdp cdt : List Yaml) :
    merge_packages (some (.value (mkDefault nm tg bp bt dp dt))) none
      = .ok (mkDefault nm tg bp bt dp dt) ∧
    merge_packages (some (.value (mkDefault nm tg bp bt dp dt)))
        (some (.value (.map [("base", .map [("packages", .list cbp)])])))
      = .ok (mkDefault nm tg (bp ++ cbp) bt dp dt) ∧
    merge_packages (some (.value (mkDefault nm tg bp bt dp dt)))
        (some (.value (mkCustomAll cbp cbt cdp cdt)))
      = .ok (mkDefault nm tg (bp ++ cbp) (bt ++ cbt) (dp ++ cdp) (dt ++ cdt)) ∧
    merge_packages
        (some (.value (mkDefault "ubuntu" "24.04" [.str "a", .str "b"] [] [] [])))
        (some (.value (.map [("base", .map [("packages", .list [.str "c"])])])))
      = .ok (mkDefault "ubuntu" "24.04" [.str "a", .str "b", .str "c"] [] [] []) := by
  refine ⟨rfl, rfl, rfl, rfl⟩

theorem infix_data_append_right {n : List Char} (p u : String) (h : n <:+: u.data) :
    n <:+: (p ++ u).data := by
  rw [String.data_append]
  exact h.trans (List.suffix_append _ _).isInfix

theorem strContainsB_append_right {u : String} (p : String) {needle : String}
    (h : strContainsB u needle = true) : strContainsB (p ++ u) needle = true := by
  unfold strContainsB at h ⊢
  exact decide_eq_true (infix_data_append_right p u (of_decide_eq_true h))

/-- C10: enabling the shell profile in `.bashrc` is idempotent: content
already mentioning `.vscode_profile` is returned unchanged, otherwise
exactly one source line is appended, and applying the operation to its own
output changes nothing. -/
theorem C10_enable_profile_idempotent (b : Option String) :
    (strContainsB (b.getD "") ".vscode_profile" = true →
      enable_vscode_profile b = b.getD "") ∧
    (strContainsB (b.getD "") ".vscode_profile" = false →
      enable_vscode_profile b = b.getD "" ++ vscodeProfileSourceLine) ∧
    enable_vscode_profile (some (enable_vscode_profile b)) = enable_vscode_profile b := by
  cases h : strContainsB (b.getD "") ".vscode_profile" with
  | true =>
    refine ⟨fun _ => ?_, fun hf => by simp [h] at hf, ?_⟩
    · simp [enable_vscode_profile, h]
    · simp [enable_vscode_profile, h]
  | false =>
    have hline : strContainsB vscodeProfileSourceLine ".vscode_profile" = true := by decide
    have happ : strContainsB (b.getD "" ++ vscodeProfileSourceLine) ".vscode_profile" = true :=
      strContainsB_append_right _ hline
    refine ⟨fun ht => by simp [h] at ht, fun _ => ?_, ?_⟩
    · simp [enable_vscode_profile, h]
    · have h1 : enable_vscode_profile b = b.getD "" ++ vscodeProfileSourceLine := by
        simp [enable_vscode_profile, h]
      rw [h1]
      simp [enable_vscode_profile, happ]

/-- C10 witness: starting from a missing `.bashrc`, one run appends the
source line and a second run is a no-op. -/
theorem C10_witness :
    enable_vscode_profile none = (none : Option String).getD "" ++ vscodeProfileSourceLine ∧
    enable_vscode_profile (some (enable_vscode_profile none)) = enable_vscode_profile none :=
  ⟨(C10_enable_profile_idempotent none).2.1 rfl,
   (C10_enable_profile_idempotent none).2.2⟩

theorem mem_keys_of_mapContains {data : YMap} {k : String}
    (h : mapContains data k = true) : k ∈ data.map (fun kv => kv.1) := by
  induction data with
  | nil => simp [mapContains, mapGet] at h
  | cons hd tl ih =>
    rcases hd with ⟨k', v⟩
    unfold mapContains mapGet at h
    cases hk : (k' == k) with
    | true => simp [List.map_cons, List.mem_cons, eq_of_beq hk]
    | false =>
      simp only [hk, Bool.false_eq_true, if_false] at h
      exact List.mem_cons_of_mem _ (ih h)

theorem mem_insertAsc {a s : String} {l : List String} :
    a ∈ insertAsc s l ↔ a = s ∨ a ∈ l := by
  induction l with
  | nil => simp [insertAsc]
  | cons x xs ih =>
    unfold insertAsc
    by_cases hle : s ≤ x
    · simp [hle]
    · simp [hle, ih]
      tauto

theorem mem_sortStrs {a : String} {l : List String} : a ∈ sortStrs l ↔ a ∈ l := by
  induction l with
  | nil => simp [sortStrs]
  | cons x xs ih => simp [sortStrs, mem_insertAsc, ih]

theorem infix_joinComma {a : String} {l : List String} (h : a ∈ l) :
    a.data <:+: (joinComma l).data := by
  induction l with
  | nil => cases h
  | cons x xs ih =>
    cases xs with
    | nil =>
      rcases List.mem_singleton.mp h with rfl
      exact List.infix_rfl
    | cons y rest =>
      rcases List.mem_cons.mp h with rfl | hmem
      · show a.data <:+: (a ++ ", " ++ joinComma (y :: rest)).data
        rw [String.data_append, String.data_append]
        exact ((List.prefix_append a.data _).trans (List.prefix_append _ _)).isInfix
      · show a.data <:+: (x ++ ", " ++ joinComma (y :: rest)).data
        rw [String.data_append]
        exact (ih hmem).trans (List.suffix_append _ _).isInfix

theorem strContainsB_joinComma {a : String} {l : List String} (h : a ∈ l) (p : String) :
    strContainsB (p ++ joinComma l) a = true := by
  unfold strContainsB
  exact decide_eq_true (infix_data_append_right p _ (infix_joinComma h))

/-- C7: the packages-custom validator never fails on any top-level mapping,
and a top-level key outside base/devenv makes it emit a warning whose text
mentions that key. -/
theorem C7_packages_custom_nonfatal (data : YMap) (fn k : String) :
    vpass (validate_packages_custom data fn) = true ∧
    (mapContains data k = true → k ≠ "base" → k ≠ "devenv" →
      (vwarns (validate_packages_custom data fn)).any
        (fun w => strContainsB w k) = true) := by
  constructor
  · cases hE : (setDiff (data.map (fun kv => kv.1)) ["base", "devenv"]).isEmpty <;>
      simp [validate_packages_custom, hE, vpass]
  · intro hk h1 h2
    have hmem : k ∈ setDiff (data.map (fun kv => kv.1)) ["base", "devenv"] := by
      unfold setDiff
      rw [List.mem_dedup, List.mem_filter]
      refine ⟨mem_keys_of_mapContains hk, ?_⟩
      simp [h1, h2]
    have hne : (setDiff (data.map (fun kv => kv.1)) ["base", "devenv"]).isEmpty = false := by
      cases hsd : setDiff (data.map (fun kv => kv.1)) ["base", "devenv"] with
      | nil => rw [hsd] at hmem; cases hmem
      | cons x xs => rfl
    have hsub : strContainsB
        (fn ++ ": Unknown sections: " ++
          joinComma (sortStrs (setDiff (data.map (fun kv => kv.1)) ["base", "devenv"]))) k
          = true :=
      strContainsB_joinComma (mem_sortStrs.mpr hmem) _
    simp [validate_packages_custom, hne, vwarns, hsub]

/-- C7 witness: a mapping with the extra top-level key `foo` passes and the
warning names `foo`. -/
theorem C7_witness :
    vpass (validate_packages_custom
      [("base", .map []), ("devenv", .map []), ("foo", .int 1)] "packages.custom.yml") = true ∧
    (vwarns (validate_packages_custom
      [("base", .map []), ("devenv", .map []), ("foo", .int 1)] "packages.custom.yml")).any
      (fun w => strContainsB w "foo") = true :=
  ⟨(C7_packages_custom_nonfatal
      [("base", .map []), ("devenv", .map []), ("foo", .int 1)] "packages.custom.yml" "foo").1,
   (C7_packages_custom_nonfatal
      [("base", .map []), ("devenv", .map []), ("foo", .int 1)] "packages.custom.yml" "foo").2
     rfl (by decide) (by decide)⟩

theorem mem_image_name (ein : EnvInputs) (pk : YFile) (sfx : String) :
    ("IMAGE_NAME=" ++ (imageConfig pk).1) ∈ generate_env ein pk sfx := by
  cases hgr : ein.git_root <;> simp [generate_env, hgr, List.mem_append]

theorem mem_image_tag (ein : EnvInputs) (pk : YFile) (sfx : String) :
    ("IMAGE_TAG=" ++ (imageConfig pk).2) ∈ generate_env ein pk sfx := by
  cases hgr : ein.git_root <;> simp [generate_env, hgr, List.mem_append]

theorem imageConfig_fallback {pk : YFile} (h : pkMissingImage pk = true) :
    imageConfig pk = ("ubuntu", "24.04") := by
  match pk with
  | none => rfl
  | some .parseErr => rfl
  | some (.value .null) => rfl
  | some (.value (.bool b)) => rfl
  | some (.value (.int n)) => rfl
  | some (.value (.str s)) => rfl
  | some (.value (.list xs)) => rfl
  | some (.value (.map kvs)) =>
    simp only [pkMissingImage, Bool.and_eq_true, Bool.not_eq_true'] at h
    obtain ⟨h1, h2⟩ := h
    unfold mapContains at h1 h2
    cases hg1 : mapGet kvs "image_name" with
    | some v => rw [hg1] at h1; simp at h1
    | none =>
      cases hg2 : mapGet kvs "image_tag" with
      | some v => rw [hg2] at h2; simp at h2
      | none => simp only [imageConfig, hg1, hg2]

/-- C8: when the merged packages document is unreadable or lacks the image
fields, environment generation still succeeds and emits the fixed fallback
values `IMAGE_NAME=ubuntu` and `IMAGE_TAG=24.04`. -/
theorem C8_image_fallback (ein : EnvInputs) (pk : YFile) (sfx : String)
    (h : pkMissingImage pk = true) :
    "IMAGE_NAME=ubuntu" ∈ generate_env ein pk sfx ∧
    "IMAGE_TAG=24.04" ∈ generate_env ein pk sfx := by
  have himg := imageConfig_fallback h
  constructor
  · have hm := mem_image_name ein pk sfx
    rw [himg] at hm
    exact hm
  · have hm := mem_image_tag ein pk sfx
    rw [himg] at hm
    exact hm

/-- C8 witness: a missing merged file still yields the fallback image
lines. -/
theorem C8_witness :
    "IMAGE_NAME=ubuntu" ∈ generate_env c1Env none "" ∧
    "IMAGE_TAG=24.04" ∈ generate_env c1Env none "" :=
  C8_image_fallback c1Env none "" rfl

theorem mem_service_prepare (ein : EnvInputs) (pk : YFile) (sfx : String) :
    ("SERVICE_PREPARE=" ++
      ((envGet ein.environ "USER").getD ((envGet ein.environ "USERNAME").getD "developer")) ++
      "-devcontainer-prepare" ++ (if sfx ≠ "" then "-" ++ sfx else ""))
      ∈ generate_env ein pk sfx := by
  cases hgr : ein.git_root <;> simp [generate_env, hgr, List.mem_append]

theorem mem_service_main (ein : EnvInputs) (pk : YFile) (sfx : String) :
    ("SERVICE_MAIN=" ++
      ((envGet ein.environ "USER").getD ((envGet ein.environ "USERNAME").getD "developer")) ++
      "-devcontainer" ++ (if sfx ≠ "" then "-" ++ sfx else ""))
      ∈ generate_env ein pk sfx := by
  cases hgr : ein.git_root <;> simp [generate_env, hgr, List.mem_append]

/-- C9: with `USER=alice`, the emitted lines contain exactly
`SERVICE_PREPARE=alice-devcontainer-prepare` and
`SERVICE_MAIN=alice-devcontainer` for the empty suffix, and
`SERVICE_PREPARE=alice-devcontainer-prepare-dev` and
`SERVICE_MAIN=alice-devcontainer-dev` for suffix `dev` (a non-empty suffix
is inserted with a single separating hyphen, an empty one adds nothing). -/
theorem C9_service_names (ein : EnvInputs) (pk : YFile)
    (hU : envGet ein.environ "USER" = some "alice") :
    "SERVICE_PREPARE=alice-devcontainer-prepare" ∈ generate_env ein pk "" ∧
    "SERVICE_MAIN=alice-devcontainer" ∈ generate_env ein pk "" ∧
    "SERVICE_PREPARE=alice-devcontainer-prepare-dev" ∈ generate_env ein pk "dev" ∧
    "SERVICE_MAIN=alice-devcontainer-dev" ∈ generate_env ein pk "dev" := by
  refine ⟨?_, ?_, ?_, ?_⟩
  · have hm := mem_service_prepare ein pk ""
    rw [hU] at hm
    exact hm
  · have hm := mem_service_main ein pk ""
    rw [hU] at hm
    exact hm
  · have hm := mem_service_prepare ein pk "dev"
    rw [hU] at hm
    exact hm
  · have hm := mem_service_main ein pk "dev"
    rw [hU] at hm
    exact hm

/-- C9 witness: the four service lines at the concrete environment of the
claim. -/
theorem C9_witness :
    "SERVICE_PREPARE=alice-devcontainer-prepare" ∈ generate_env c1Env none "" ∧
    "SERVICE_MAIN=alice-devcontainer" ∈ generate_env c1Env none "" ∧
    "SERVICE_PREPARE=alice-devcontainer-prepare-dev" ∈ generate_env c1Env none "dev" ∧
    "SERVICE_MAIN=alice-devcontainer-dev" ∈ generate_env c1Env none "dev" :=
  C9_service_names c1Env none rfl

theorem isOkE_ite (c : Prop) [Decidable c] (a b : Bool × List String) :
    isOkE (if c then .ok a else .ok b) = true := by
  split <;> rfl

/-- C2 (amended): every validator variant terminates normally with a
pass/fail verdict provided the nested values it inspects are mappings when
present (`services` and `services.devcontainer` for the compose variants,
`base` for the packages variant); the packages-custom variant never raises
on any top-level mapping.  Outside these shapes a validator can raise (see
the counterexample). -/
theorem C2_validators_total (data : YMap) (fn : String)
    (hcc : composeCustomSafe data = true)
    (hb : mapOrAbsent data "base" = true) :
    isOkE (validate_compose data fn) = true ∧
    isOkE (validate_compose_custom data fn) = true ∧
    isOkE (validate_packages data fn) = true ∧
    isOkE (validate_packages_custom data fn) = true := by
  refine ⟨?_, ?_, ?_, ?_⟩
  · cases hs : mapGet data "services" with
    | none => simp [validate_compose, mapContains, hs, isOkE]
    | some v =>
      cases v with
      | map svcs =>
        cases hd : (mapGet svcs "devcontainer").isSome <;>
          simp [validate_compose, mapContains, hs, mapGetD, pyContains, hd, isOkE]
      | null => simp [composeCustomSafe, hs] at hcc
      | bool b => simp [composeCustomSafe, hs] at hcc
      | int n => simp [composeCustomSafe, hs] at hcc
      | str s => simp [composeCustomSafe, hs] at hcc
      | list xs => simp [composeCustomSafe, hs] at hcc
  · cases hs : mapGet data "services" with
    | none => simp [validate_compose_custom, validate_compose, mapContains, hs, isOkE]
    | some v =>
      cases v with
      | map svcs =>
        cases hd : mapGet svcs "devcontainer" with
        | none =>
          simp [validate_compose_custom, validate_compose, mapContains, hs, hd,
                mapGetD, pyContains, isOkE]
        | some dev =>
          cases dev with
          | map dkvs =>
            have hpass : validate_compose data fn = .ok (true, []) := by
              simp [validate_compose, mapContains, hs, hd, mapGetD, pyContains]
            simp [validate_compose_custom, hpass, pySubscriptStr, hs, hd, pyKeys]
            exact isOkE_ite _ _ _
          | null => simp [composeCustomSafe, hs, mapOrAbsent, hd] at hcc
          | bool b => simp [composeCustomSafe, hs, mapOrAbsent, hd] at hcc
          | int n => simp [composeCustomSafe, hs, mapOrAbsent, hd] at hcc
          | str s => simp [composeCustomSafe, hs, mapOrAbsent, hd] at hcc
          | list xs => simp [composeCustomSafe, hs, mapOrAbsent, hd] at hcc
      | null => simp [composeCustomSafe, hs] at hcc
      | bool b => simp [composeCustomSafe, hs] at hcc
      | int n => simp [composeCustomSafe, hs] at hcc
      | str s => simp [composeCustomSafe, hs] at hcc
      | list xs => simp [composeCustomSafe, hs] at hcc
  · cases h1 : fieldIsStr data "image_name" with
    | false => simp [validate_packages, h1, isOkE]
    | true =>
      cases h2 : fieldIsStr data "image_tag" with
      | false => simp [validate_packages, h1, h2, isOkE]
      | true =>
        cases hbg : mapGet data "base" with
        | none => simp [validate_packages, h1, h2, mapContains, hbg, isOkE]
        | some v =>
          cases v with
          | map bkvs =>
            cases hp : mapGet bkvs "packages" with
            | none =>
              simp [validate_packages, h1, h2, mapContains, hbg, mapGetD, hp, isOkE]
            | some pv =>
              cases pv <;>
                simp [validate_packages, h1, h2, mapContains, hbg, mapGetD, hp, isOkE]
          | null => simp [mapOrAbsent, hbg] at hb
          | bool b => simp [mapOrAbsent, hbg] at hb
          | int n => simp [mapOrAbsent, hbg] at hb
          | str s => simp [mapOrAbsent, hbg] at hb
          | list xs => simp [mapOrAbsent, hbg] at hb
  · cases hE : (setDiff (data.map (fun kv => kv.1)) ["base", "devenv"]).isEmpty <;>
      simp [validate_packages_custom, hE, isOkE]

/-- C2 witness: on a well-shaped mapping all four validators terminate
normally. -/
theorem C2_witness :
    isOkE (validate_compose
      [("services", .map [("devcontainer", .map [("ports", .list [])])]),
       ("base", .map [("packages", .list [])])] "a.yml") = true ∧
    isOkE (validate_compose_custom
      [("services", .map [("devcontainer", .map [("ports", .list [])])]),
       ("base", .map [("packages", .list [])])] "a.yml") = true ∧
    isOkE (validate_packages
      [("services", .map [("devcontainer", .map [("ports", .list [])])]),
       ("base", .map [("packages", .list [])])] "a.yml") = true ∧
    isOkE (validate_packages_custom
      [("services", .map [("devcontainer", .map [("ports", .list [])])]),
       ("base", .map [("packages", .list [])])] "a.yml") = true :=
  C2_validators_total
    [("services", .map [("devcontainer", .map [("ports", .list [])])]),
     ("base", .map [("packages", .list [])])] "a.yml" rfl rfl

/-- C3 (amended): on every top-level mapping whose `services` value, when
present, is a mapping, the compose validator terminates normally and
passes exactly when `services` is present and contains the key
`devcontainer`; the value at `services.devcontainer` may be of any type. -/
theorem C3_compose_pass_iff (data : YMap) (fn : String)
    (hs : mapOrAbsent data "services" = true) :
    isOkE (validate_compose data fn) = true ∧
    vpass (validate_compose data fn) = composeSpecPass data := by
  cases hg : mapGet data "services" with
  | none =>
    simp [validate_compose, mapContains, hg, composeSpecPass, isOkE, vpass]
  | some v =>
    cases v with
    | map svcs =>
      cases hd : (mapGet svcs "devcontainer").isSome <;>
        simp [validate_compose, mapContains, hg, mapGetD, pyContains, hd,
              composeSpecPass, isOkE, vpass]
    | null => simp [mapOrAbsent, hg] at hs
    | bool b => simp [mapOrAbsent, hg] at hs
    | int n => simp [mapOrAbsent, hg] at hs
    | str s => simp [mapOrAbsent, hg] at hs
    | list xs => simp [mapOrAbsent, hg] at hs

/-- C3 witness: a compose document with `services.devcontainer` present
passes, matching the amended characterisation. -/
theorem C3_witness :
    isOkE (validate_compose
      [("services", .map [("devcontainer", .map [])])] "docker-compose.default.yml") = true ∧
    vpass (validate_compose
      [("services", .map [("devcontainer", .map [])])] "docker-compose.default.yml")
      = composeSpecPass [("services", .map [("devcontainer", .map [])])] :=
  C3_compose_pass_iff [("services", .map [("devcontainer", .map [])])]
    "docker-compose.default.yml" rfl

theorem validate_packages_missing_tag {d : YMap} (fn : String)
    (h : mapContains d "image_tag" = false) :
    validate_packages d fn = .ok (false, []) := by
  have ht : fieldIsStr d "image_tag" = false := by
    unfold mapContains at h
    unfold fieldIsStr
    cases hg : mapGet d "image_tag" with
    | some v => rw [hg] at h; simp at h
    | none => rfl
  cases h1 : fieldIsStr d "image_name" with
  | false => simp [validate_packages, h1]
  | true => simp [validate_packages, h1, ht]

/-- C6: a packages-default document that is a mapping but lacks
`image_tag` makes validation fail and `main` return exit code 1 before the
merge and environment stages: neither `packages.yml` nor `.env` is
written. -/
theorem C6_shape_failure_fail_fast (fs : FileSys) (host : HostInfo) (ein : EnvInputs)
    (sfx : String) (d : YMap)
    (hdir : fs.docker_dir = true)
    (hcd : validate_yaml fs.compose_default "docker-compose.default.yml" validate_compose
      = .ok true)
    (hcc : checkComposeCustom fs.compose_custom = .ok true)
    (hpd : fs.packages_default = some (.value (.map d)))
    (htag : mapContains d "image_tag" = false) :
    mainRun fs host ein sfx = .ok ⟨1, fs.compose_custom.isNone, false, false, false, []⟩ := by
  have hval : validate_yaml fs.packages_default "packages.default.yml" validate_packages
      = .ok false := by
    rw [hpd]
    simp [validate_yaml, validate_packages_missing_tag _ htag]
  simp [mainRun, hdir, hcd, hcc, hval, bind, Except.bind, pure, Except.pure]

/-- C6 witness: the concrete run stops with exit code 1 and no merged or
environment output. -/
theorem C6_witness :
    mainRun c6Files c1Host c1Env "" = .ok ⟨1, false, false, false, false, []⟩ :=
  C6_shape_failure_fail_fast c6Files c1Host c1Env ""
    [("image_name", .str "ubuntu"), ("base", .map [("packages", .list [])])]
    rfl rfl rfl rfl rfl

theorem pathGet_congr {m m' : Yaml} {s2 : String}
    (h : topGet m' s2 = topGet m s2) (k2 : String) :
    pathGet m' s2 k2 = pathGet m s2 k2 := by
  unfold pathGet
  rw [h]

theorem mapGet_mapSet_ne (m : YMap) (k k' : String) (v : Yaml) (h : k' ≠ k) :
    mapGet (mapSet m k v) k' = mapGet m k' := by
  have hkk : (k == k') = false := beq_eq_false_iff_ne.mpr (fun he => h he.symm)
  induction m with
  | nil => simp [mapSet, mapGet, hkk]
  | cons hd tl ih =>
    rcases hd with ⟨a, b⟩
    unfold mapSet
    cases hak : (a == k) with
    | true =>
      have ha : a = k := eq_of_beq hak
      subst ha
      simp [mapGet, hkk]
    | false =>
      simp only [Bool.false_eq_true, if_false]
      unfold mapGet
      cases haK : (a == k') <;> simp [haK, ih]

theorem mapGet_mapSet_self (m : YMap) (k : String) (v : Yaml) :
    mapGet (mapSet m k v) k = some v := by
  induction m with
  | nil => simp [mapSet, mapGet]
  | cons hd tl ih =>
    rcases hd with ⟨a, b⟩
    unfold mapSet
    cases hak : (a == k) with
    | true => simp [mapGet, hak]
    | false =>
      simp only [Bool.false_eq_true, if_false]
      unfold mapGet
      simp [hak, ih]

theorem setdefaultPath_frame {m m' : Yaml} {sec fld : String}
    (h : setdefaultPath m sec fld = .ok m') :
    (∀ k, k ≠ sec → topGet m' k = topGet m k) ∧
    (∀ k2, k2 ≠ fld → pathGet m' sec k2 = pathGet m sec k2) := by
  cases m with
  | map mkvs =>
    cases hg : mapGet mkvs sec with
    | none =>
      simp only [setdefaultPath, hg, Except.ok.injEq] at h
      subst h
      constructor
      · intro k hk
        simp [topGet, mapGet_mapSet_ne _ _ _ _ hk]
      · intro k2 hk2
        have hne : ("" : String) = "" := rfl
        simp [pathGet, topGet, mapGet_mapSet_self, hg, mapGet,
              beq_eq_false_iff_ne.mpr (fun he => hk2 he.symm)]
    | some msec =>
      cases msec with
      | map skvs =>
        cases hf : mapGet skvs fld with
        | some fv =>
          simp only [setdefaultPath, hg, hf, Except.ok.injEq] at h
          subst h
          exact ⟨fun _ _ => rfl, fun _ _ => rfl⟩
        | none =>
          simp only [setdefaultPath, hg, hf, Except.ok.injEq] at h
          subst h
          constructor
          · intro k hk
            simp [topGet, mapGet_mapSet_ne _ _ _ _ hk]
          · intro k2 hk2
            simp [pathGet, topGet, mapGet_mapSet_self, hg,
                  mapGet_mapSet_ne _ _ _ _ hk2]
      | null => simp [setdefaultPath, hg] at h
      | bool b => simp [setdefaultPath, hg] at h
      | int n => simp [setdefaultPath, hg] at h
      | str s => simp [setdefaultPath, hg] at h
      | list xs => simp [setdefaultPath, hg] at h
  | null => simp [setdefaultPath] at h
  | bool b => simp [setdefaultPath] at h
  | int n => simp [setdefaultPath] at h
  | str s => simp [setdefaultPath] at h
  | list xs => simp [setdefaultPath] at h

theorem extendPath_frame {m custom m' : Yaml} {sec fld : String}
    (h : extendPath m custom sec fld = .ok m') :
    (∀ k, k ≠ sec → topGet m' k = topGet m k) ∧
    (∀ k2, k2 ≠ fld → pathGet m' sec k2 = pathGet m sec k2) := by
  cases m with
  | map mkvs =>
    cases hg : mapGet mkvs sec with
    | none => simp [extendPath, pySubscriptStr, hg] at h
    | some msec =>
      cases msec with
      | map skvs =>
        cases hf : mapGet skvs fld with
        | none => simp [extendPath, pySubscriptStr, hg, hf] at h
        | some mval =>
          cases mval with
          | list ms =>
            have hs1 : pySubscriptStr (.map mkvs) sec = .ok (.map skvs) := by
              simp [pySubscriptStr, hg]
            have hs2 : pySubscriptStr (.map skvs) fld = .ok (.list ms) := by
              simp [pySubscriptStr, hf]
            unfold extendPath at h
            simp only [hs1, hs2] at h
            cases hc1 : pySubscriptStr custom sec with
            | error e => simp [hc1] at h
            | ok csec =>
              simp only [hc1] at h
              cases hc2 : pySubscriptStr csec fld with
              | error e => simp [hc2] at h
              | ok cval =>
                simp only [hc2] at h
                cases hc3 : pyIterate cval with
                | error e => simp [hc3] at h
                | ok items =>
                  simp only [hc3, Except.ok.injEq] at h
                  subst h
                  constructor
                  · intro k hk
                    simp [topGet, mapGet_mapSet_ne _ _ _ _ hk]
                  · intro k2 hk2
                    simp [pathGet, topGet, mapGet_mapSet_self, hg,
                          mapGet_mapSet_ne _ _ _ _ hk2]
          | null => simp [extendPath, pySubscriptStr, hg, hf] at h
          | bool b => simp [extendPath, pySubscriptStr, hg, hf] at h
          | int n => simp [extendPath, pySubscriptStr, hg, hf] at h
          | str s => simp [extendPath, pySubscriptStr, hg, hf] at h
          | map dk => simp [extendPath, pySubscriptStr, hg, hf] at h
      | null => simp [extendPath, pySubscriptStr, hg] at h
      | bool b => simp [extendPath, pySubscriptStr, hg] at h
      | int n => simp [extendPath, pySubscriptStr, hg] at h
      | str s => simp [extendPath, pySubscriptStr, hg] at h
      | list xs => simp [extendPath, pySubscriptStr, hg] at h
  | null => simp [extendPath, pySubscriptStr] at h
  | bool b => simp [extendPath, pySubscriptStr] at h
  | int n => simp [extendPath, pySubscriptStr] at h
  | str s => simp [extendPath, pySubscriptStr] at h
  | list xs => simp [extendPath, pySubscriptStr] at h

theorem mergeField_frame {m custom m' : Yaml} {sec fld : String}
    (h : mergeField m custom sec fld = .ok m') :
    (∀ k, k ≠ sec → topGet m' k = topGet m k) ∧
    (∀ k2, k2 ≠ fld → pathGet m' sec k2 = pathGet m sec k2) := by
  unfold mergeField at h
  cases hc : pySubscriptStr custom sec with
  | error e => simp [hc] at h
  | ok csec =>
    simp only [hc] at h
    cases hp : pyContains fld csec with
    | error e => simp [hp] at h
    | ok b =>
      simp only [hp] at h
      cases b with
      | false =>
        simp only [Except.ok.injEq] at h
        subst h
        exact ⟨fun _ _ => rfl, fun _ _ => rfl⟩
      | true =>
        cases hsd : setdefaultPath m sec fld with
        | error e => simp [hsd] at h
        | ok m₁ =>
          simp only [hsd] at h
          obtain ⟨a1, b1⟩ := setdefaultPath_frame hsd
          obtain ⟨a2, b2⟩ := extendPath_frame h
          exact ⟨fun k hk => (a2 k hk).trans (a1 k hk),
                 fun k2 hk2 => (b2 k2 hk2).trans (b1 k2 hk2)⟩

theorem mergeSection_frame {m custom m' : Yaml} {sec : String}
    (h : mergeSection m custom sec = .ok m') :
    (∀ k, k ≠ sec → topGet m' k = topGet m k) ∧
    (∀ s2 k2, k2 ≠ "packages" → k2 ≠ "python_tools" →
      pathGet m' s2 k2 = pathGet m s2 k2) := by
  unfold mergeSection at h
  cases hc : pyContains sec custom with
  | error e => simp [hc] at h
  | ok b =>
    simp only [hc] at h
    cases b with
    | false =>
      simp only [Except.ok.injEq] at h
      subst h
      exact ⟨fun _ _ => rfl, fun _ _ _ _ => rfl⟩
    | true =>
      cases h1 : mergeField m custom sec "packages" with
      | error e => simp [h1] at h
      | ok m₁ =>
        simp only [h1] at h
        obtain ⟨a1, b1⟩ := mergeField_frame h1
        obtain ⟨a2, b2⟩ := mergeField_frame h
        refine ⟨fun k hk => (a2 k hk).trans (a1 k hk), fun s2 k2 hp hpt => ?_⟩
        by_cases hs2 : s2 = sec
        · subst hs2
          exact (b2 k2 hpt).trans (b1 k2 hp)
        · exact (pathGet_congr (a2 s2 hs2) k2).trans (pathGet_congr (a1 s2 hs2) k2)

/-- C5: the merge never touches scalar fields or anything outside the
fixed MergeSpec table: whenever the merge of a (mapping) default document
with any custom file succeeds, every top-level key outside base/devenv —
in particular `image_name` and `image_tag` — is bound in the merged
document to exactly its value in the default, and every nested key outside
packages/python_tools is unchanged under every section. -/
theorem C5_merge_frame (dflt : YMap) (customFile : YFile) (merged : Yaml)
    (k s2 k2 : String)
    (hm : merge_packages (some (.value (.map dflt))) customFile = .ok merged)
    (hk1 : k ≠ "base") (hk2 : k ≠ "devenv")
    (hq1 : k2 ≠ "packages") (hq2 : k2 ≠ "python_tools") :
    topGet merged k = mapGet dflt k ∧
    topGet merged "image_name" = mapGet dflt "image_name" ∧
    topGet merged "image_tag" = mapGet dflt "image_tag" ∧
    pathGet merged s2 k2 = pathGet (.map dflt) s2 k2 := by
  unfold merge_packages loadRequired loadOutcome at hm
  have frame :
      (∀ j, j ≠ "base" → j ≠ "devenv" → topGet merged j = topGet (.map dflt) j) ∧
      (∀ t2 t3, t3 ≠ "packages" → t3 ≠ "python_tools" →
        pathGet merged t2 t3 = pathGet (.map dflt) t2 t3) := by
    cases customFile with
    | none =>
      simp only [Except.ok.injEq] at hm
      subst hm
      exact ⟨fun _ _ _ => rfl, fun _ _ _ _ => rfl⟩
    | some co =>
      cases co with
      | parseErr => simp at hm
      | value raw =>
        simp only [] at hm
        cases hb : mergeSection (.map dflt) (pyOrEmptyMap raw) "base" with
        | error e => simp [hb] at hm
        | ok m₁ =>
          simp only [hb] at hm
          obtain ⟨aB, bB⟩ := mergeSection_frame hb
          obtain ⟨aD, bD⟩ := mergeSection_frame hm
          constructor
          · intro j hj1 hj2
            exact (aD j hj2).trans (aB j hj1)
          · intro t2 t3 ht1 ht2
            exact (bD t2 t3 ht1 ht2).trans (bB t2 t3 ht1 ht2)
  refine ⟨frame.1 k hk1 hk2, ?_, ?_, frame.2 s2 k2 hq1 hq2⟩
  · exact frame.1 "image_name" (by decide) (by decide)
  · exact frame.1 "image_tag" (by decide) (by decide)

/-- C5 witness: a concrete merge where the custom layer extends
`base.packages`; the scalar fields and the key `extra` keep their default
bindings, and `base.other` is untouched. -/
theorem C5_witness :
    topGet (.map [("image_name", .str "u"), ("image_tag", .str "t"),
        ("base", .map [("packages", .list [.str "x"]), ("other", .int 3)]),
        ("extra", .int 7)]) "extra"
      = mapGet [("image_name", .str "u"), ("image_tag", .str "t"),
        ("base", .map [("packages", .list []), ("other", .int 3)]),
        ("extra", .int 7)] "extra" ∧
    topGet (.map [("image_name", .str "u"), ("image_tag", .str "t"),
        ("base", .map [("packages", .list [.str "x"]), ("other", .int 3)]),
        ("extra", .int 7)]) "image_name"
      = mapGet [("image_name", .str "u"), ("image_tag", .str "t"),
        ("base", .map [("packages", .list []), ("other", .int 3)]),
        ("extra", .int 7)] "image_name" ∧
    topGet (.map [("image_name", .str "u"), ("image_tag", .str "t"),
        ("base", .map [("packages", .list [.str "x"]), ("other", .int 3)]),
        ("extra", .int 7)]) "image_tag"
      = mapGet [("image_name", .str "u"), ("image_tag", .str "t"),
        ("base", .map [("packages", .list []), ("other", .int 3)]),
        ("extra", .int 7)] "image_tag" ∧
    pathGet (.map [("image_name", .str "u"), ("image_tag", .str "t"),
        ("base", .map [("packages", .list [.str "x"]), ("other", .int 3)]),
        ("extra", .int 7)]) "base" "other"
      = pathGet (.map [("image_name", .str "u"), ("image_tag", .str "t"),
        ("base", .map [("packages", .list []), ("other", .int 3)]),
        ("extra", .int 7)]) "base" "other" :=
  C5_merge_frame
    [("image_name", .str "u"), ("image_tag", .str "t"),
     ("base", .map [("packages", .list []), ("other", .int 3)]),
     ("extra", .int 7)]
    (some (.value (.map [("base", .map [("packages", .list [.str "x"])])])))
    (.map [("image_name", .str "u"), ("image_tag", .str "t"),
     ("base", .map [("packages", .list [.str "x"]), ("other", .int 3)]),
     ("extra", .int 7)])
    "extra" "base" "other" rfl
    (by decide) (by decide) (by decide) (by decide)
